import Mathlib

set_option maxRecDepth 100000

/-
Shallow embedding of the seat-inventory reservation engine
(src/server/app of the client_server_demo repository).

Modelling conventions:
- Database rows become Lean structures collected in lists inside `DB`;
  UUID primary keys become `Nat` values.
- Python `datetime` values become `Int` seconds; `datetime.utcnow()` is an
  explicit `now` parameter.
- Random identifiers (uuid4, booking codes from `secrets.choice`) are
  explicit parameters of the operations that draw them.
- A service raising an exception maps to `Except.error`; since every service
  commits only at the end of its happy path, an error leaves the database
  unchanged (`stateAfter` realizes the rollback).
- `ProblemDetailsException` subclasses are modelled by the `ProblemDetails`
  fields the claims mention: HTTP status, problem `code` extension and
  `retryable` extension.  A bare Python `ValueError` (raised by `UUID(...)`
  on malformed input) is `ServiceError.valueError`, which is not a
  problem-details error.
-/

namespace Reservation

/-- Hold status enum from models/booking.py (`HoldStatus`). -/
inductive HoldStatus
  | ACTIVE
  | EXPIRED
  | CONFIRMED
  | CANCELED
deriving DecidableEq, Repr

/-- Booking status enum from models/booking.py (`BookingStatus`). -/
inductive BookingStatus
  | CONFIRMED
  | CANCELED
deriving DecidableEq, Repr

/-- Departure row (models/departure.py): only the columns the booking,
waitlist and inventory services read or write. -/
structure Departure where
  id : Nat
  capacity_total : Int
  capacity_available : Int
deriving DecidableEq, Repr

/-- Hold row (models/booking.py `Hold`). -/
structure Hold where
  id : Nat
  departure_id : Nat
  seats : Int
  customer_ref : String
  expires_at : Int
  status : HoldStatus
  idempotency_key : String
deriving DecidableEq, Repr

/-- Booking row (models/booking.py `Booking`). -/
structure Booking where
  id : Nat
  hold_id : Nat
  departure_id : Nat
  code : String
  seats : Int
  customer_ref : String
  status : BookingStatus
deriving DecidableEq, Repr

/-- Waitlist row (models/waitlist.py `WaitlistEntry`). -/
structure WaitlistEntry where
  id : Nat
  departure_id : Nat
  customer_ref : String
  notified_at : Option Int
  created_at : Int
deriving DecidableEq, Repr

/-- Inventory adjustment audit row (models/inventory.py `InventoryAdjustment`). -/
structure InventoryAdjustment where
  id : Nat
  departure_id : Nat
  delta : Int
  reason : String
  actor : String
  capacity_total_before : Int
  capacity_total_after : Int
  capacity_available_before : Int
  capacity_available_after : Int
deriving DecidableEq, Repr

/-- The relational store: one list per table used by the claims. -/
structure DB where
  departures : List Departure
  holds : List Hold
  bookings : List Booking
  waitlist : List WaitlistEntry
  adjustments : List InventoryAdjustment
deriving DecidableEq, Repr

/-- The problem-details fields the claims talk about: HTTP status plus the
optional `code` and `retryable` extensions set by the business exceptions. -/
structure ProblemDetails where
  status : Nat
  code : Option String
  retryable : Option Bool
deriving DecidableEq, Repr

/-- Errors a service call can raise: a `ProblemDetailsException` (carrying
its problem-details fields) or a bare `ValueError` from `UUID(...)`. -/
inductive ServiceError
  | problem (p : ProblemDetails)
  | valueError
deriving DecidableEq, Repr

/-- core/exceptions.py `NotFoundError`: status 404, no code, no retryable. -/
def notFoundProblem : ProblemDetails :=
  { status := 404, code := none, retryable := none }

/-- core/exceptions.py `ConflictError`: status 409, no code extension. -/
def conflictProblem : ProblemDetails :=
  { status := 409, code := none, retryable := none }

/-- booking_service.py `CapacityFullError`: subclasses `ConflictError`
(status 409) and updates problem details with code FULL, retryable false. -/
def capacityFullProblem : ProblemDetails :=
  { status := 409, code := some "FULL", retryable := some false }

/-- booking_service.py `HoldExpiredError`: the service-local class subclasses
`ConflictError`, so its HTTP status is 409 (not the 410 of the unused
core/exceptions.py class of the same name); it updates problem details with
code HOLD_EXPIRED and retryable false. -/
def holdExpiredProblem : ProblemDetails :=
  { status := 409, code := some "HOLD_EXPIRED", retryable := some false }

/-- inventory_service.py `CapacityConflictError`: subclasses `ConflictError`
(status 409) with code CAPACITY_CONFLICT, retryable false. -/
def capacityConflictProblem : ProblemDetails :=
  { status := 409, code := some "CAPACITY_CONFLICT", retryable := some false }

/-- idempotency_service.py `IdempotencyMismatchError`: status 422 with code
IDEMPOTENCY_KEY_MISMATCH, retryable false. -/
def idempotencyMismatchProblem : ProblemDetails :=
  { status := 422, code := some "IDEMPOTENCY_KEY_MISMATCH", retryable := some false }

/-- Value of a hexadecimal digit, as accepted by Python `int(s, 16)` for a
single character. -/
def hexDigitVal (c : Char) : Option Nat :=
  if c.isDigit then some (c.toNat - ('0').toNat)
  else if ('a') ≤ c ∧ c ≤ ('f') then some (c.toNat - ('a').toNat + 10)
  else if ('A') ≤ c ∧ c ≤ ('F') then some (c.toNat - ('A').toNat + 10)
  else none

/-- Remove every occurrence of `pat` from a character list, left to right and
non-overlapping, as Python `str.replace(pat, "")` does.  The fuel argument
(instantiated with the list length) makes the recursion structural; every
step consumes at least one character, so the fuel never runs out. -/
def removeSubstrAux (pat : List Char) : Nat → List Char → List Char
  | _, [] => []
  | 0, cs => cs
  | fuel + 1, c :: cs =>
    if pat.isPrefixOf (c :: cs) ∧ pat ≠ [] then
      removeSubstrAux pat fuel (List.drop (pat.length - 1) cs)
    else
      c :: removeSubstrAux pat fuel cs

/-- Python `s.replace(pat, "")` on character lists. -/
def removeSubstr (pat cs : List Char) : List Char :=
  removeSubstrAux pat cs.length cs

/-- Python `s.strip(chars)`: drop characters satisfying `p` from both ends. -/
def stripChars (p : Char → Bool) (cs : List Char) : List Char :=
  ((cs.dropWhile p).reverse.dropWhile p).reverse

/-- ASCII whitespace skipped by CPython `int(s, 16)`: space, tab, newline,
vertical tab, form feed, carriage return. -/
def isAsciiSpace (c : Char) : Bool :=
  c == ' ' || c == Char.ofNat 9 || c == Char.ofNat 10 ||
  c == Char.ofNat 11 || c == Char.ofNat 12 || c == Char.ofNat 13

/-- The digit part of CPython `int(s, 16)`: hexadecimal digits with single
underscores allowed only between digits (or directly after a consumed `0x`
prefix), at least one digit, and no trailing underscore.  `seenDigit` records
whether a digit has been consumed and `undOk` whether an underscore may come
next (true at entry only right after the prefix). -/
def hexLoop (acc : Nat) (seenDigit undOk : Bool) : List Char → Option Nat
  | [] => if seenDigit && undOk then some acc else none
  | c :: cs =>
    if c == ('_') then
      if undOk then hexLoop acc seenDigit false cs else none
    else
      match hexDigitVal c with
      | some v => hexLoop (16 * acc + v) true true cs
      | none => none

/-- The body of CPython `int(s, 16)` after sign handling: an optional `0x` or
`0X` prefix, then underscore-separated hexadecimal digits. -/
def intHexBody (neg : Bool) (cs : List Char) : Option Int :=
  let m : Option Nat :=
    match cs with
    | c0 :: c1 :: rest =>
      if c0 == ('0') && (c1 == ('x') || c1 == ('X')) then hexLoop 0 false true rest
      else hexLoop 0 false false cs
    | _ => hexLoop 0 false false cs
  m.map (fun n => if neg then -(n : Int) else (n : Int))

/-- CPython `int(s, 16)` on ASCII character lists: strip surrounding ASCII
whitespace, one optional sign, optional `0x` prefix, underscore-separated
hexadecimal digits.  Returns `none` where Python raises `ValueError`.
CPython additionally maps Unicode decimal digits and Unicode spaces to ASCII
first; the model covers ASCII strings, which is the scope the theorems that
use the `none` direction restrict to. -/
def intHexAscii (cs0 : List Char) : Option Int :=
  let cs1 := stripChars isAsciiSpace cs0
  match cs1 with
  | c :: rest =>
    if c == ('+') then intHexBody false rest
    else if c == ('-') then intHexBody true rest
    else intHexBody false cs1
  | [] => none

/-- The CPython `uuid.UUID(hex)` constructor: delete `urn:` and `uuid:`,
strip curly braces (written via `Char.ofNat` codes 123 and 125), delete
hyphens, require exactly 32 remaining characters, read them with
`int(hex, 16)`, and require the value to lie in `[0, 2^128)` as
`UUID(int=...)` does.  Returns `none` where Python raises `ValueError`. -/
def uuidParse (s : String) : Option Nat :=
  let cs := removeSubstr ("uuid:".toList) (removeSubstr ("urn:".toList) s.toList)
  let cs := stripChars (fun c => c == Char.ofNat 123 || c == Char.ofNat 125) cs
  let cs := cs.filter (fun c => c ≠ ('-'))
  if cs.length = 32 then
    (intHexAscii cs).bind (fun i =>
      if 0 ≤ i ∧ i < 2 ^ 128 then some i.toNat else none)
  else none

/-- All characters of the string are ASCII (code points at most 127). -/
def isAsciiStr (s : String) : Bool :=
  s.toList.all (fun c => c.toNat ≤ 127)

/-- SELECT a departure row by primary key (`DepartureService.get_departure_by_id`,
also the row returned under lock by `get_departure_with_lock`). -/
def getDeparture (db : DB) (did : Nat) : Option Departure :=
  db.departures.find? (fun d => d.id == did)

/-- SELECT a hold row by primary key (`BookingService.get_hold_by_id`). -/
def getHold (db : DB) (hid : Nat) : Option Hold :=
  db.holds.find? (fun h => h.id == hid)

/-- SELECT a booking row by primary key (`BookingService.get_booking_by_id`). -/
def getBooking (db : DB) (bid : Nat) : Option Booking :=
  db.bookings.find? (fun b => b.id == bid)

/-- SELECT a booking row by its hold id (`BookingService.get_booking_by_hold_id`). -/
def getBookingByHoldId (db : DB) (hid : Nat) : Option Booking :=
  db.bookings.find? (fun b => b.hold_id == hid)

/-- Write back a mutated departure row (the flush of a dirty ORM object). -/
def updateDeparture (db : DB) (dep : Departure) : DB :=
  { db with departures := db.departures.map (fun d => if d.id == dep.id then dep else d) }

/-- Request schema schemas/booking.py `CreateHoldRequest`; `departure_id` is a
plain string, validated only by `UUID(...)` inside the service. -/
structure CreateHoldRequest where
  departure_id : String
  seats : Int
  customer_ref : String
  ttl_seconds : Int
deriving DecidableEq, Repr

/-- `BookingService.create_hold`: parse the departure id, load the departure
under lock (404 when missing), reject with `CapacityFullError` when
`capacity_available < seats`, otherwise insert an ACTIVE hold expiring at
`now + ttl_seconds` and decrement `capacity_available` by `seats`.
`newHoldId` stands for the uuid4 drawn for the new row. -/
def create_hold (db : DB) (req : CreateHoldRequest) (ikey : String) (now : Int)
    (newHoldId : Nat) : Except ServiceError (Hold × DB) :=
  match uuidParse req.departure_id with
  | none => .error .valueError
  | some did =>
    match getDeparture db did with
    | none => .error (.problem notFoundProblem)
    | some dep =>
      if dep.capacity_available < req.seats then
        .error (.problem capacityFullProblem)
      else
        let hold : Hold :=
          { id := newHoldId, departure_id := did, seats := req.seats,
            customer_ref := req.customer_ref, expires_at := now + req.ttl_seconds,
            status := .ACTIVE, idempotency_key := ikey }
        let dep2 := { dep with capacity_available := dep.capacity_available - req.seats }
        .ok (hold, { updateDeparture db dep2 with holds := db.holds ++ [hold] })

/-- The database state after a service call: the new state on success, the
original state on an error (the transaction is rolled back). -/
def stateAfter {α : Type} (db : DB) : Except ServiceError (α × DB) → DB
  | .ok (_, db2) => db2
  | .error _ => db

/-- Request schema schemas/booking.py `ConfirmBookingRequest`. -/
structure ConfirmBookingRequest where
  hold_id : String
deriving DecidableEq, Repr

/-- `BookingService.confirm_booking`: parse the hold id, load the hold (404
when missing), raise the service-local `HoldExpiredError` when
`expires_at <= now`, raise plain `ConflictError` when the status is not
ACTIVE, return an existing booking for the hold if one exists, otherwise
insert a CONFIRMED booking and mark the hold CONFIRMED.  Capacity is not
touched.  `newBookingId` is the uuid4 for the new row and `code` the random
collision-free booking code chosen by the generate-and-retry loop. -/
def confirm_booking (db : DB) (req : ConfirmBookingRequest) (now : Int)
    (newBookingId : Nat) (code : String) : Except ServiceError (Booking × DB) :=
  match uuidParse req.hold_id with
  | none => .error .valueError
  | some hid =>
    match getHold db hid with
    | none => .error (.problem notFoundProblem)
    | some hold =>
      if hold.expires_at ≤ now then
        .error (.problem holdExpiredProblem)
      else if hold.status ≠ HoldStatus.ACTIVE then
        .error (.problem conflictProblem)
      else
        match getBookingByHoldId db hid with
        | some existing => .ok (existing, db)
        | none =>
          let booking : Booking :=
            { id := newBookingId, hold_id := hid, departure_id := hold.departure_id,
              code := code, seats := hold.seats, customer_ref := hold.customer_ref,
              status := .CONFIRMED }
          let hold2 := { hold with status := HoldStatus.CONFIRMED }
          .ok (booking,
            { db with bookings := db.bookings ++ [booking],
                      holds := db.holds.map (fun h => if h.id == hid then hold2 else h) })

/-- Request schema schemas/booking.py `CancelBookingRequest`. -/
structure CancelBookingRequest where
  booking_id : String
deriving DecidableEq, Repr

/-- `BookingService.cancel_booking`: parse the booking id, load the booking
(404 when missing), load its departure under lock (404 when missing), return
the booking unchanged when already CANCELED, otherwise set the booking
CANCELED, add `booking.seats` back to `capacity_available` (the source has
no cap against `capacity_total`), and set the linked hold CANCELED. -/
def cancel_booking (db : DB) (req : CancelBookingRequest) :
    Except ServiceError (Booking × DB) :=
  match uuidParse req.booking_id with
  | none => .error .valueError
  | some bid =>
    match getBooking db bid with
    | none => .error (.problem notFoundProblem)
    | some booking =>
      match getDeparture db booking.departure_id with
      | none => .error (.problem notFoundProblem)
      | some dep =>
        if booking.status = BookingStatus.CANCELED then
          .ok (booking, db)
        else
          let booking2 := { booking with status := BookingStatus.CANCELED }
          let dep2 := { dep with capacity_available := dep.capacity_available + booking.seats }
          .ok (booking2,
            { updateDeparture db dep2 with
                bookings := db.bookings.map (fun b => if b.id == bid then booking2 else b),
                holds := db.holds.map (fun h =>
                  if h.id == booking.hold_id then { h with status := HoldStatus.CANCELED } else h) })

/-- `BookingService.expire_holds`: select up to `batch` ACTIVE holds with
`expires_at <= now`, and for each one mark it EXPIRED and restore its seats
to the departure.  Returns the number expired with the new state. -/
def expire_holds (db : DB) (now : Int) (batch : Nat) : Nat × DB :=
  let expired := (db.holds.filter
    (fun h => h.status == HoldStatus.ACTIVE && decide (h.expires_at ≤ now))).take batch
  expired.foldl (fun acc h =>
    match getDeparture acc.2 h.departure_id with
    | none => acc
    | some dep =>
      (acc.1 + 1,
        { updateDeparture acc.2
            { dep with capacity_available := dep.capacity_available + h.seats } with
          holds := acc.2.holds.map (fun h2 =>
            if h2.id == h.id then { h2 with status := HoldStatus.EXPIRED } else h2) }))
    (0, db)

/-- Request schema schemas/inventory.py `AdjustInventoryRequest`. -/
structure AdjustInventoryRequest where
  departure_id : String
  delta : Int
  reason : String
deriving DecidableEq, Repr

/-- `InventoryService.adjust_inventory`: parse the departure id, load the
departure under lock (404 when missing), refuse with `CapacityConflictError`
when the new total would be negative or when a reduction exceeds
`capacity_available`; otherwise apply the delta to both capacity columns
(with the defensive clamps of the source) and append an audit row. -/
def adjust_inventory (db : DB) (req : AdjustInventoryRequest) (actor : String)
    (newAdjId : Nat) : Except ServiceError (InventoryAdjustment × DB) :=
  match uuidParse req.departure_id with
  | none => .error .valueError
  | some did =>
    match getDeparture db did with
    | none => .error (.problem notFoundProblem)
    | some dep =>
      let new_total := dep.capacity_total + req.delta
      if new_total < 0 then
        .error (.problem capacityConflictProblem)
      else if req.delta < 0 ∧ abs req.delta > dep.capacity_available then
        .error (.problem capacityConflictProblem)
      else
        let avail1 := dep.capacity_available + req.delta
        let avail2 := if avail1 < 0 then 0 else avail1
        let avail3 := if avail2 > new_total then new_total else avail2
        let adj : InventoryAdjustment :=
          { id := newAdjId, departure_id := did, delta := req.delta,
            reason := req.reason, actor := actor,
            capacity_total_before := dep.capacity_total,
            capacity_total_after := new_total,
            capacity_available_before := dep.capacity_available,
            capacity_available_after := avail3 }
        .ok (adj,
          { updateDeparture db { dep with capacity_total := new_total,
                                          capacity_available := avail3 } with
            adjustments := db.adjustments ++ [adj] })

/-- Request schema schemas/waitlist.py `NotifyWaitlistRequest`. -/
structure NotifyWaitlistRequest where
  departure_id : String
deriving DecidableEq, Repr

/-- Response schema schemas/waitlist.py `NotifyWaitlistResponse`. -/
structure NotifyWaitlistResponse where
  processed_count : Nat
  holds_created : List Hold
deriving DecidableEq, Repr

/-- Stable insertion of a waitlist entry into a list sorted ascending by
`created_at` (an entry goes after earlier-or-equal entries). -/
def insertByCreatedAt (e : WaitlistEntry) : List WaitlistEntry → List WaitlistEntry
  | [] => [e]
  | x :: xs =>
    if x.created_at ≤ e.created_at then x :: insertByCreatedAt e xs
    else e :: x :: xs

/-- The ORDER BY created_at of the waitlist SELECT: a stable sort (ties keep
the stored order, which the source leaves unspecified). -/
def sortByCreatedAt : List WaitlistEntry → List WaitlistEntry
  | [] => []
  | x :: xs => insertByCreatedAt x (sortByCreatedAt xs)

/-- UPDATE setting `notified_at` on one waitlist entry. -/
def markNotified (db : DB) (eid : Nat) (now : Int) : DB :=
  { db with waitlist := db.waitlist.map (fun e =>
      if e.id == eid then { e with notified_at := some now } else e) }

/-- Current `capacity_available` of a departure row (0 when the row is
missing; the operations only read it for existing departures). -/
def depAvailable (db : DB) (did : Nat) : Int :=
  match getDeparture db did with
  | some d => d.capacity_available
  | none => 0

/-- Current `capacity_total` of a departure row. -/
def depTotal (db : DB) (did : Nat) : Int :=
  match getDeparture db did with
  | some d => d.capacity_total
  | none => 0

/-- The extra `departure.capacity_available -= 1` of waitlist_service.py
line 193, applied on top of the decrement `create_hold` already committed
(the session shares one identity-mapped departure object and is configured
with expire_on_commit=False, so both writes land in the row). -/
def decAvailable (db : DB) (did : Nat) : DB :=
  { db with departures := db.departures.map (fun d =>
      if d.id == did then { d with capacity_available := d.capacity_available - 1 } else d) }

/-- The per-entry loop of `WaitlistService.notify_waitlist`: stop when the
shared departure object shows no capacity, otherwise create a 1-seat 300s
hold through `create_hold`, mark the entry notified, and apply the extra
capacity decrement of line 193; a failed hold creation skips the entry.
Fresh hold ids are drawn as successive naturals from `nextId`. -/
def notifyLoop (reqStr : String) (did : Nat) (now : Int) :
    List WaitlistEntry → Nat → DB → Nat → List Hold → Nat × List Hold × DB
  | [], _, db, processed, acc => (processed, acc, db)
  | e :: rest, nextId, db, processed, acc =>
    if depAvailable db did ≤ 0 then (processed, acc, db)
    else
      match create_hold db
          { departure_id := reqStr, seats := 1, customer_ref := e.customer_ref,
            ttl_seconds := 300 }
          ("waitlist-" ++ toString e.id ++ "-" ++ toString now) now nextId with
      | .error _ => notifyLoop reqStr did now rest nextId db processed acc
      | .ok (h, db1) =>
        let db2 := markNotified db1 e.id now
        let db3 := decAvailable db2 did
        notifyLoop reqStr did now rest (nextId + 1) db3 (processed + 1) (acc ++ [h])

/-- `WaitlistService.notify_waitlist`: parse the departure id, load the
departure under lock (404 when missing), select the unnotified entries in
created_at order limited to `capacity_available`, and run the notification
loop.  `idBase` seeds the uuid4 supply for the created holds. -/
def notify_waitlist (db : DB) (req : NotifyWaitlistRequest) (now : Int)
    (idBase : Nat) : Except ServiceError (NotifyWaitlistResponse × DB) :=
  match uuidParse req.departure_id with
  | none => .error .valueError
  | some did =>
    match getDeparture db did with
    | none => .error (.problem notFoundProblem)
    | some dep =>
      let entries := (sortByCreatedAt (db.waitlist.filter (fun e =>
          e.departure_id == did && e.notified_at.isNone))).take dep.capacity_available.toNat
      if entries.isEmpty then
        .ok ({ processed_count := 0, holds_created := [] }, db)
      else
        let r := notifyLoop req.departure_id did now entries idBase db 0 []
        .ok ({ processed_count := r.1, holds_created := r.2.1 }, r.2.2)

/-- Seats held against a departure by holds whose status is ACTIVE or
CONFIRMED (the sum in the global capacity invariant of the specification). -/
def heldSeats (db : DB) (did : Nat) : Int :=
  ((db.holds.filter (fun h => h.departure_id == did &&
      (h.status == HoldStatus.ACTIVE || h.status == HoldStatus.CONFIRMED))).map
    (fun h => h.seats)).sum

/-- Response body of an HTTP response: either a serialized success payload or
the problem-details object of a raised `ProblemDetailsException` (both kinds
are cached verbatim by the idempotency layer). -/
inductive RespBody
  | payload (s : String)
  | problem (p : ProblemDetails)
deriving DecidableEq, Repr

/-- An HTTP response as the client sees it: status code and body. -/
structure HttpResponse where
  status : Nat
  body : RespBody
deriving DecidableEq, Repr

/-- Idempotency record row (models/idempotency.py `IdempotencyRecord`), with
the unique constraint on `(idempotency_key, method)`. -/
structure IdemRecord where
  idempotency_key : String
  method : String
  request_body_hash : String
  response_status_code : Nat
  response_body : RespBody
  expires_at : Int
deriving DecidableEq, Repr

/-- The idempotency TTL: `ttl_hours = 24` of idempotency_service.py, in
seconds. -/
def idemTTLSeconds : Int := 24 * 3600

/-- The SELECT of `IdempotencyService.check_idempotency`: the record for
`(key, method)` whose `expires_at` is strictly in the future. -/
def findIdemRecord (records : List IdemRecord) (key method : String) (now : Int) :
    Option IdemRecord :=
  records.find? (fun r =>
    r.idempotency_key == key && r.method == method && decide (now < r.expires_at))

/-- `IdempotencyService.store_response`: insert the record with
`expires_at = now + 24h`; a unique-constraint collision on `(key, method)`
is swallowed (the insert is dropped and the existing record kept). -/
def storeResponse (records : List IdemRecord) (key method hash : String)
    (resp : HttpResponse) (now : Int) : List IdemRecord :=
  if records.any (fun r => r.idempotency_key == key && r.method == method) then
    records
  else
    records ++ [{ idempotency_key := key, method := method, request_body_hash := hash,
                  response_status_code := resp.status, response_body := resp.body,
                  expires_at := now + idemTTLSeconds }]

/-- Combined state threaded through the dispatcher: the idempotency table
plus the domain state the wrapped operation acts on. -/
structure DispatchState (σ : Type) where
  records : List IdemRecord
  domain : σ
deriving DecidableEq, Repr

/-- The dispatcher `_handle_idempotent_operation` of routers/booking.py,
wrapped around a domain operation `op` on domain state `σ`.  `hashFn` stands
for `_compute_request_hash` (SHA-256 over the canonically serialized JSON
body); the claims constrain only equality and inequality of hashes, so the
hash function is kept abstract.  A cached record replays its stored status
and body; a record with a different hash raises `IdempotencyMismatchError`
(HTTP 422) before the operation runs; a miss runs the operation and stores
its response, success or problem-details error alike. -/
def execute {σ : Type} (hashFn : String → String) (op : σ → HttpResponse × σ)
    (method key body : String) (now : Int) (st : DispatchState σ) :
    HttpResponse × DispatchState σ :=
  let h := hashFn body
  match findIdemRecord st.records key method now with
  | some r =>
    if r.request_body_hash ≠ h then
      ({ status := 422, body := .problem idempotencyMismatchProblem }, st)
    else
      ({ status := r.response_status_code, body := r.response_body }, st)
  | none =>
    let rd := op st.domain
    (rd.1, { records := storeResponse st.records key method h rd.1 now, domain := rd.2 })

/-- `execute` iterated over a list of call times with the same method, key
and body, collecting the responses in order. -/
def executeMany {σ : Type} (hashFn : String → String) (op : σ → HttpResponse × σ)
    (method key body : String) (times : List Int) (st : DispatchState σ) :
    List HttpResponse × DispatchState σ :=
  match times with
  | [] => ([], st)
  | t :: ts =>
    let r1 := execute hashFn op method key body t st
    let r2 := executeMany hashFn op method key body ts r1.2
    (r1.1 :: r2.1, r2.2)

/-- The `POST /v1/booking/hold` endpoint of routers/booking.py: the
idempotency check, then `BookingService.create_hold` inside the dispatcher
try-block.  A `ProblemDetailsException` is stored and re-raised (the handler
renders its status); a bare `ValueError` from `UUID(...)` is not caught by
the `except ProblemDetailsException` clause, falls through to the endpoint
catch-all and becomes `HTTPException(500)` with nothing stored.  Returns the
HTTP status and the resulting combined state.  `body` is the canonically
serialized request body used for hashing. -/
def create_hold_endpoint (hashFn : String → String) (st : DispatchState DB)
    (req : CreateHoldRequest) (key body : String) (now : Int) (newHoldId : Nat) :
    Nat × DispatchState DB :=
  match findIdemRecord st.records key "booking/hold" now with
  | some r =>
    if r.request_body_hash ≠ hashFn body then (422, st)
    else (r.response_status_code, st)
  | none =>
    match create_hold st.domain req key now newHoldId with
    | .ok (h, db2) =>
      let resp : HttpResponse := { status := 200, body := .payload (toString h.id) }
      (200, { records := storeResponse st.records key "booking/hold" (hashFn body) resp now,
              domain := db2 })
    | .error (.problem p) =>
      let resp : HttpResponse := { status := p.status, body := .problem p }
      (p.status, { records := storeResponse st.records key "booking/hold" (hashFn body) resp now,
                   domain := st.domain })
    | .error .valueError => (500, st)

/-- The `POST /v1/booking/confirm` endpoint of routers/booking.py: same
dispatcher wrapping as the hold endpoint, with method `booking/confirm`
around `BookingService.confirm_booking`; a bare `ValueError` from
`UUID(request.hold_id)` reaches the endpoint catch-all as HTTP 500 with
nothing stored. -/
def confirm_booking_endpoint (hashFn : String → String) (st : DispatchState DB)
    (req : ConfirmBookingRequest) (key body : String) (now : Int) (nid : Nat)
    (code : String) : Nat × DispatchState DB :=
  match findIdemRecord st.records key "booking/confirm" now with
  | some r =>
    if r.request_body_hash ≠ hashFn body then (422, st)
    else (r.response_status_code, st)
  | none =>
    match confirm_booking st.domain req now nid code with
    | .ok (b, db2) =>
      let resp : HttpResponse := { status := 200, body := .payload (toString b.id) }
      (200, { records := storeResponse st.records key "booking/confirm" (hashFn body) resp now,
              domain := db2 })
    | .error (.problem p) =>
      let resp : HttpResponse := { status := p.status, body := .problem p }
      (p.status, { records := storeResponse st.records key "booking/confirm" (hashFn body) resp now,
                   domain := st.domain })
    | .error .valueError => (500, st)

/-- The `POST /v1/booking/cancel` endpoint of routers/booking.py: the
dispatcher with method `booking/cancel` around
`BookingService.cancel_booking`; a bare `ValueError` from
`UUID(request.booking_id)` reaches the endpoint catch-all as HTTP 500 with
nothing stored. -/
def cancel_booking_endpoint (hashFn : String → String) (st : DispatchState DB)
    (req : CancelBookingRequest) (key body : String) (now : Int) :
    Nat × DispatchState DB :=
  match findIdemRecord st.records key "booking/cancel" now with
  | some r =>
    if r.request_body_hash ≠ hashFn body then (422, st)
    else (r.response_status_code, st)
  | none =>
    match cancel_booking st.domain req with
    | .ok (b, db2) =>
      let resp : HttpResponse := { status := 200, body := .payload (toString b.id) }
      (200, { records := storeResponse st.records key "booking/cancel" (hashFn body) resp now,
              domain := db2 })
    | .error (.problem p) =>
      let resp : HttpResponse := { status := p.status, body := .problem p }
      (p.status, { records := storeResponse st.records key "booking/cancel" (hashFn body) resp now,
                   domain := st.domain })
    | .error .valueError => (500, st)

/-- Request schema schemas/booking.py `GetBookingRequest`. -/
structure GetBookingRequest where
  booking_id : String
deriving DecidableEq, Repr

/-- `BookingService.get_booking`: parse the booking id and load the row
through `get_booking_by_id_or_raise` (404 when missing); read-only. -/
def get_booking (db : DB) (req : GetBookingRequest) : Except ServiceError Booking :=
  match uuidParse req.booking_id with
  | none => .error .valueError
  | some bid =>
    match getBooking db bid with
    | none => .error (.problem notFoundProblem)
    | some b => .ok b

/-- The `POST /v1/booking/get` endpoint of routers/booking.py: read-only, no
idempotency wrapping; a `ProblemDetailsException` keeps its status and a
bare `ValueError` from `UUID(request.booking_id)` hits the endpoint
catch-all as HTTP 500.  Returns the HTTP status. -/
def get_booking_endpoint (db : DB) (req : GetBookingRequest) : Nat :=
  match get_booking db req with
  | .ok _ => 200
  | .error (.problem p) => p.status
  | .error .valueError => 500

/-- Observation: the processed_count of a notify_waitlist result. -/
def processedCountOf : Except ServiceError (NotifyWaitlistResponse × DB) → Option Nat
  | .ok (resp, _) => some resp.processed_count
  | .error _ => none

/-- Observation: how many holds a notify_waitlist result created. -/
def holdsCreatedCountOf : Except ServiceError (NotifyWaitlistResponse × DB) → Option Nat
  | .ok (resp, _) => some resp.holds_created.length
  | .error _ => none

/-- Observation: the `notified_at` column of a waitlist entry. -/
def entryNotifiedAt (db : DB) (eid : Nat) : Option (Option Int) :=
  (db.waitlist.find? (fun e => e.id == eid)).map (fun e => e.notified_at)

/-- Observation: the hold returned by a successful create_hold call. -/
def holdResultOf : Except ServiceError (Hold × DB) → Option Hold
  | .ok (h, _) => some h
  | .error _ => none

/-- Observation: the booking returned by a successful booking call. -/
def bookingResultOf : Except ServiceError (Booking × DB) → Option Booking
  | .ok (b, _) => some b
  | .error _ => none

/-- Canonical string of the UUID with integer value 1, used as departure id
in the concrete scenarios. -/
def uuidOne : String := "00000000-0000-0000-0000-000000000001"

/-- Canonical string of the UUID with integer value 2 (hold id). -/
def uuidTwo : String := "00000000-0000-0000-0000-000000000002"

/-- Departure with 2 of 2 seats free and one unnotified waitlist entry:
input for running notify_waitlist against the capacity invariant. -/
def leakDB : DB :=
  { departures := [{ id := 1, capacity_total := 2, capacity_available := 2 }],
    holds := [], bookings := [],
    waitlist := [{ id := 10, departure_id := 1, customer_ref := "w1",
                   notified_at := none, created_at := 1 }],
    adjustments := [] }

/-- State after notify_waitlist on `leakDB` (now = 0, hold ids from 100). -/
def leakDBAfter : DB :=
  stateAfter leakDB (notify_waitlist leakDB { departure_id := uuidOne } 0 100)

/-- Scenario S5 of the specification: departure with 2 free seats and three
unnotified waitlist entries w1, w2, w3 in created_at order. -/
def s5DB : DB :=
  { departures := [{ id := 1, capacity_total := 2, capacity_available := 2 }],
    holds := [], bookings := [],
    waitlist := [{ id := 11, departure_id := 1, customer_ref := "w1",
                   notified_at := none, created_at := 1 },
                 { id := 12, departure_id := 1, customer_ref := "w2",
                   notified_at := none, created_at := 2 },
                 { id := 13, departure_id := 1, customer_ref := "w3",
                   notified_at := none, created_at := 3 }],
    adjustments := [] }

/-- State after notify_waitlist on `s5DB` (now = 0, hold ids from 100). -/
def s5DBAfter : DB :=
  stateAfter s5DB (notify_waitlist s5DB { departure_id := uuidOne } 0 100)

/-- Departure with an ACTIVE hold (id 2, 3 seats) expiring at time 100:
input for confirming an expired hold. -/
def expiredHoldDB : DB :=
  { departures := [{ id := 1, capacity_total := 10, capacity_available := 7 }],
    holds := [{ id := 2, departure_id := 1, seats := 3, customer_ref := "alice",
                expires_at := 100, status := .ACTIVE, idempotency_key := "k1" }],
    bookings := [], waitlist := [], adjustments := [] }

/-- Departure with a CONFIRMED, non-expired hold (id 2) and its existing
booking (id 3): input for replaying confirm on a confirmed hold. -/
def confirmedHoldDB : DB :=
  { departures := [{ id := 1, capacity_total := 10, capacity_available := 7 }],
    holds := [{ id := 2, departure_id := 1, seats := 3, customer_ref := "alice",
                expires_at := 100, status := .CONFIRMED, idempotency_key := "k1" }],
    bookings := [{ id := 3, hold_id := 2, departure_id := 1, code := "CODEAAAA",
                   seats := 3, customer_ref := "alice", status := .CONFIRMED }],
    waitlist := [], adjustments := [] }

/-- The booking already present in `confirmedHoldDB`. -/
def confirmedHoldBooking : Booking :=
  { id := 3, hold_id := 2, departure_id := 1, code := "CODEAAAA",
    seats := 3, customer_ref := "alice", status := .CONFIRMED }

/-- Departure with 50 of 50 seats free: witness input for create_hold. -/
def fiftySeatDB : DB :=
  { departures := [{ id := 1, capacity_total := 50, capacity_available := 50 }],
    holds := [], bookings := [], waitlist := [], adjustments := [] }

/-- The departure row of `fiftySeatDB`. -/
def fiftySeatDeparture : Departure :=
  { id := 1, capacity_total := 50, capacity_available := 50 }

/-- Departure with total 50 and only 10 seats free: witness input for the
refused inventory reduction (scenario S6). -/
def reducedAvailDB : DB :=
  { departures := [{ id := 1, capacity_total := 50, capacity_available := 10 }],
    holds := [], bookings := [], waitlist := [], adjustments := [] }

/-- The departure row of `reducedAvailDB`. -/
def reducedAvailDeparture : Departure :=
  { id := 1, capacity_total := 50, capacity_available := 10 }

/-- The ACTIVE hold of `expiredHoldDB`. -/
def expiredHold : Hold :=
  { id := 2, departure_id := 1, seats := 3, customer_ref := "alice",
    expires_at := 100, status := .ACTIVE, idempotency_key := "k1" }

/-- Observation: the error raised by a service call, if any. -/
def errorOf {α : Type} : Except ServiceError α → Option ServiceError
  | .error e => some e
  | .ok _ => none

/-- A sample domain operation on a counter state: answers 200 and increments
the counter, so any re-invocation is visible in the state. -/
def demoOp : Nat → HttpResponse × Nat :=
  fun n => ({ status := 200, body := .payload "ok" }, n + 1)

/-- Empty idempotency table over the counter domain, starting at 0. -/
def demoDispatch : DispatchState Nat :=
  { records := [], domain := 0 }

/-- Empty idempotency table over the database domain `fiftySeatDB`. -/
def emptyDispatchDB : DispatchState DB :=
  { records := [], domain := fiftySeatDB }

/-- A row update through `List.map` keeps a keyed `find?` pointing at the
updated row: looking up key `i` after replacing every row of key `j = i`
with its key-preserving update `f` returns `f` of the row found before. -/
theorem find?_beqkey_map {α : Type} (key : α → Nat) (f : α → α) (l : List α)
    (a : α) (i j : Nat)
    (h : l.find? (fun x => key x == i) = some a)
    (hj : j = i) (hf : key (f a) = key a) :
    (l.map (fun x => if key x == j then f x else x)).find? (fun x => key x == i)
      = some (f a) := by
  simp only [hj]
  have hai : key a = i := by simpa using List.find?_some h
  induction l with
  | nil => simp at h
  | cons x xs ih =>
    by_cases hx : key x = i
    · rw [List.find?_cons_of_pos _ (by simpa using hx)] at h
      have hxa : x = a := by simpa using h
      subst hxa
      simp only [List.map_cons, if_pos (show (key x == i) = true by simpa using hx)]
      exact List.find?_cons_of_pos _ (by simp [hf, hai])
    · rw [List.find?_cons_of_neg _ (by simpa using hx)] at h
      simp only [List.map_cons, if_neg (show ¬(key x == i) = true by simpa using hx)]
      rw [List.find?_cons_of_neg _ (by simpa using hx)]
      exact ih h

/-- Updating a departure row keeps `getDeparture` pointing at the new row. -/
theorem getDeparture_updateDeparture (db : DB) (did : Nat) (dep dep2 : Departure)
    (hdep : getDeparture db did = some dep) (hid : dep2.id = dep.id) :
    getDeparture (updateDeparture db dep2) did = some dep2 := by
  have hai : dep.id = did := by simpa using List.find?_some hdep
  have h2 := find?_beqkey_map Departure.id (fun _ => dep2) db.departures dep did dep2.id
    hdep (hid.trans hai) hid
  unfold getDeparture updateDeparture
  exact h2

/-- A key query over the idempotency table misses when no record carries the
key and method, whatever the time. -/
theorem findIdemRecord_fresh (records : List IdemRecord) (k M : String) (t : Int)
    (hfresh : ∀ r ∈ records, ¬(r.idempotency_key = k ∧ r.method = M)) :
    findIdemRecord records k M t = none := by
  rw [findIdemRecord, List.find?_eq_none]
  intro r hr
  simp only [Bool.and_eq_true, beq_iff_eq, decide_eq_true_eq]
  intro hcon
  exact hfresh r hr ⟨hcon.1.1, hcon.1.2⟩

/-- Storing under a fresh key appends exactly one record with a 24h TTL. -/
theorem storeResponse_fresh (records : List IdemRecord) (k M h : String)
    (resp : HttpResponse) (t : Int)
    (hfresh : ∀ r ∈ records, ¬(r.idempotency_key = k ∧ r.method = M)) :
    storeResponse records k M h resp t =
      records ++ [{ idempotency_key := k, method := M, request_body_hash := h,
                    response_status_code := resp.status, response_body := resp.body,
                    expires_at := t + idemTTLSeconds }] := by
  have hany : (records.any (fun r => r.idempotency_key == k && r.method == M)) = false := by
    rw [List.any_eq_false]
    intro r hr
    simp only [Bool.and_eq_true, beq_iff_eq]
    intro hcon
    exact hfresh r hr ⟨hcon.1, hcon.2⟩
  rw [storeResponse, if_neg (by simp [hany])]

/-- C1: the capacity invariant `capacity_available + held seats =
capacity_total` holds before but not after `notify_waitlist` on a departure
with two free seats and one unnotified waitlist entry: the promotion loop
decrements `capacity_available` once inside `create_hold` and once more at
line 193 of waitlist_service.py, so two seats vanish for one 1-seat hold. -/
theorem notify_waitlist_breaks_capacity_invariant :
    depAvailable leakDB 1 + heldSeats leakDB 1 = depTotal leakDB 1 ∧
    processedCountOf (notify_waitlist leakDB { departure_id := uuidOne } 0 100) = some 1 ∧
    depAvailable leakDBAfter 1 + heldSeats leakDBAfter 1 ≠ depTotal leakDBAfter 1 := by
  decide

/-- C2: scenario S5 of the specification: with k = 2 free seats and q = 3
unnotified entries, `notify_waitlist` creates only 1 hold and marks only the
first entry notified, instead of the claimed min(k, q) = 2, because each
iteration consumes two units of `capacity_available`. -/
theorem notify_waitlist_underprocesses_queue :
    processedCountOf (notify_waitlist s5DB { departure_id := uuidOne } 0 100) = some 1 ∧
    holdsCreatedCountOf (notify_waitlist s5DB { departure_id := uuidOne } 0 100) = some 1 ∧
    entryNotifiedAt s5DBAfter 11 = some (some 0) ∧
    entryNotifiedAt s5DBAfter 12 = some none ∧
    entryNotifiedAt s5DBAfter 13 = some none ∧
    (1 : Nat) ≠ min 2 3 := by
  decide

/-- C5: confirming a non-expired hold whose status is already CONFIRMED does
not return the existing booking: `confirm_booking` raises the plain
`ConflictError` (status 409) at its status check, and the lookup of the
existing booking by hold id is unreachable for CONFIRMED holds. -/
theorem confirm_booking_confirmed_hold_conflicts :
    errorOf (confirm_booking confirmedHoldDB { hold_id := uuidTwo } 50 60 "NEWC0DE1")
      = some (.problem conflictProblem) ∧
    bookingResultOf (confirm_booking confirmedHoldDB { hold_id := uuidTwo } 50 60 "NEWC0DE1")
      = none ∧
    getBookingByHoldId confirmedHoldDB 2 = some confirmedHoldBooking ∧
    conflictProblem.status = 409 ∧ conflictProblem.code = none := by
  decide

/-- C4 counterexample: confirming the expired hold of `expiredHoldDB` raises
the service-local `HoldExpiredError`, whose HTTP status is 409 (it subclasses
`ConflictError`), not the 410 stated by the claim. -/
theorem confirm_expired_hold_status_counterexample :
    errorOf (confirm_booking expiredHoldDB { hold_id := uuidTwo } 100 50 "AAAA1111")
      = some (.problem holdExpiredProblem) ∧
    holdExpiredProblem.status = 409 ∧ holdExpiredProblem.status ≠ 410 := by
  decide

/-- C3: create_hold on an existing departure with seats in 1..10: when
`capacity_available < seats` it raises `CapacityFullError` (status 409, code
FULL, retryable false) and leaves the database unchanged; otherwise it
returns a new ACTIVE hold expiring at `now + ttl_seconds`, appends exactly
that hold, decrements `capacity_available` by `seats`, and leaves the
bookings table untouched. -/
theorem create_hold_capacity_spec (db : DB) (req : CreateHoldRequest) (ikey : String)
    (now : Int) (nid did : Nat) (dep : Departure)
    (hparse : uuidParse req.departure_id = some did)
    (hdep : getDeparture db did = some dep)
    (hseats : 1 ≤ req.seats ∧ req.seats ≤ 10) :
    (dep.capacity_available < req.seats →
      create_hold db req ikey now nid = .error (.problem capacityFullProblem) ∧
      capacityFullProblem.status = 409 ∧ capacityFullProblem.code = some "FULL" ∧
      capacityFullProblem.retryable = some false ∧
      stateAfter db (create_hold db req ikey now nid) = db) ∧
    (req.seats ≤ dep.capacity_available →
      holdResultOf (create_hold db req ikey now nid) =
        some { id := nid, departure_id := did, seats := req.seats,
               customer_ref := req.customer_ref, expires_at := now + req.ttl_seconds,
               status := .ACTIVE, idempotency_key := ikey } ∧
      (stateAfter db (create_hold db req ikey now nid)).holds =
        db.holds ++
          [{ id := nid, departure_id := did, seats := req.seats,
             customer_ref := req.customer_ref, expires_at := now + req.ttl_seconds,
             status := .ACTIVE, idempotency_key := ikey }] ∧
      depAvailable (stateAfter db (create_hold db req ikey now nid)) did =
        dep.capacity_available - req.seats ∧
      (stateAfter db (create_hold db req ikey now nid)).bookings = db.bookings) := by
  constructor
  · intro hfull
    have hc : create_hold db req ikey now nid = .error (.problem capacityFullProblem) := by
      simp only [create_hold, hparse, hdep, if_pos hfull]
    exact ⟨hc, rfl, rfl, rfl, by rw [hc]; rfl⟩
  · intro hle
    have hnot : ¬ dep.capacity_available < req.seats := not_lt.mpr hle
    have hc : create_hold db req ikey now nid =
        .ok ({ id := nid, departure_id := did, seats := req.seats,
               customer_ref := req.customer_ref, expires_at := now + req.ttl_seconds,
               status := .ACTIVE, idempotency_key := ikey },
             { updateDeparture db
                 { dep with capacity_available := dep.capacity_available - req.seats } with
               holds := db.holds ++
                 [{ id := nid, departure_id := did, seats := req.seats,
                    customer_ref := req.customer_ref, expires_at := now + req.ttl_seconds,
                    status := .ACTIVE, idempotency_key := ikey }] }) := by
      simp only [create_hold, hparse, hdep, if_neg hnot]
    have hget : getDeparture (stateAfter db (create_hold db req ikey now nid)) did =
        some { dep with capacity_available := dep.capacity_available - req.seats } := by
      rw [hc]
      exact getDeparture_updateDeparture db did dep _ hdep rfl
    refine ⟨by rw [hc]; rfl, by rw [hc]; rfl, ?_, by rw [hc]; rfl⟩
    rw [depAvailable, hget]

/-- C3 witness: on a departure with 50 free seats, a 5-seat 600s hold keyed
X succeeds, expires at 600, and brings `capacity_available` to 45. -/
theorem create_hold_capacity_spec_witness :
    holdResultOf (create_hold fiftySeatDB
        { departure_id := uuidOne, seats := 5, customer_ref := "bob", ttl_seconds := 600 }
        "X" 0 100) =
      some { id := 100, departure_id := 1, seats := 5, customer_ref := "bob",
             expires_at := 600, status := .ACTIVE, idempotency_key := "X" } ∧
    (stateAfter fiftySeatDB (create_hold fiftySeatDB
        { departure_id := uuidOne, seats := 5, customer_ref := "bob", ttl_seconds := 600 }
        "X" 0 100)).holds =
      fiftySeatDB.holds ++
        [{ id := 100, departure_id := 1, seats := 5, customer_ref := "bob",
           expires_at := 600, status := .ACTIVE, idempotency_key := "X" }] ∧
    depAvailable (stateAfter fiftySeatDB (create_hold fiftySeatDB
        { departure_id := uuidOne, seats := 5, customer_ref := "bob", ttl_seconds := 600 }
        "X" 0 100)) 1 = 45 ∧
    (stateAfter fiftySeatDB (create_hold fiftySeatDB
        { departure_id := uuidOne, seats := 5, customer_ref := "bob", ttl_seconds := 600 }
        "X" 0 100)).bookings = fiftySeatDB.bookings :=
  (create_hold_capacity_spec fiftySeatDB
      { departure_id := uuidOne, seats := 5, customer_ref := "bob", ttl_seconds := 600 }
      "X" 0 100 1 fiftySeatDeparture (by decide) (by decide) (by decide)).2 (by decide)

/-- C4 (amended): confirming a hold with `expires_at <= now` raises the
service-local `HoldExpiredError` with HTTP status 409 (not 410), code
HOLD_EXPIRED, retryable false, and leaves the database unchanged, so no
Booking row is created. -/
theorem confirm_expired_hold_spec (db : DB) (req : ConfirmBookingRequest)
    (now : Int) (nid : Nat) (code : String) (hid : Nat) (hold : Hold)
    (hparse : uuidParse req.hold_id = some hid)
    (hhold : getHold db hid = some hold)
    (hexp : hold.expires_at ≤ now) :
    confirm_booking db req now nid code = .error (.problem holdExpiredProblem) ∧
    holdExpiredProblem.status = 409 ∧
    holdExpiredProblem.code = some "HOLD_EXPIRED" ∧
    holdExpiredProblem.retryable = some false ∧
    stateAfter db (confirm_booking db req now nid code) = db := by
  have hc : confirm_booking db req now nid code = .error (.problem holdExpiredProblem) := by
    simp only [confirm_booking, hparse, hhold, if_pos hexp]
  exact ⟨hc, rfl, rfl, rfl, by rw [hc]; rfl⟩

/-- C4 witness: at time 100 the hold of `expiredHoldDB` (expiring at 100) is
rejected with the HOLD_EXPIRED problem and the state is untouched. -/
theorem confirm_expired_hold_spec_witness :
    confirm_booking expiredHoldDB { hold_id := uuidTwo } 100 50 "AAAA1111" =
      .error (.problem holdExpiredProblem) ∧
    holdExpiredProblem.status = 409 ∧
    holdExpiredProblem.code = some "HOLD_EXPIRED" ∧
    holdExpiredProblem.retryable = some false ∧
    stateAfter expiredHoldDB
      (confirm_booking expiredHoldDB { hold_id := uuidTwo } 100 50 "AAAA1111") =
      expiredHoldDB :=
  confirm_expired_hold_spec expiredHoldDB { hold_id := uuidTwo } 100 50 "AAAA1111"
    2 expiredHold (by decide) (by decide) (by decide)

/-- C9: an adjustment with `delta < 0` and `|delta| > capacity_available`
raises `CapacityConflictError` (status 409, code CAPACITY_CONFLICT,
retryable false) and leaves the database unchanged: no audit row is
appended and the departure keeps both capacity columns. -/
theorem adjust_negative_delta_refused (db : DB) (req : AdjustInventoryRequest)
    (actor : String) (newAdjId did : Nat) (dep : Departure)
    (hparse : uuidParse req.departure_id = some did)
    (hdep : getDeparture db did = some dep)
    (hneg : req.delta < 0)
    (hbig : abs req.delta > dep.capacity_available) :
    adjust_inventory db req actor newAdjId = .error (.problem capacityConflictProblem) ∧
    capacityConflictProblem.status = 409 ∧
    capacityConflictProblem.code = some "CAPACITY_CONFLICT" ∧
    capacityConflictProblem.retryable = some false ∧
    stateAfter db (adjust_inventory db req actor newAdjId) = db := by
  have hc : adjust_inventory db req actor newAdjId =
      .error (.problem capacityConflictProblem) := by
    simp only [adjust_inventory, hparse, hdep]
    by_cases h0 : dep.capacity_total + req.delta < 0
    · rw [if_pos h0]
    · rw [if_neg h0, if_pos ⟨hneg, hbig⟩]
  exact ⟨hc, rfl, rfl, rfl, by rw [hc]; rfl⟩

/-- C9 witness: scenario S6: on the departure with total 50 and only 10
available, `adjust(delta = -20)` is refused with CAPACITY_CONFLICT and the
state is unchanged. -/
theorem adjust_negative_delta_refused_witness :
    adjust_inventory reducedAvailDB
        { departure_id := uuidOne, delta := -20, reason := "ops" } "admin" 100 =
      .error (.problem capacityConflictProblem) ∧
    capacityConflictProblem.status = 409 ∧
    capacityConflictProblem.code = some "CAPACITY_CONFLICT" ∧
    capacityConflictProblem.retryable = some false ∧
    stateAfter reducedAvailDB (adjust_inventory reducedAvailDB
        { departure_id := uuidOne, delta := -20, reason := "ops" } "admin" 100) =
      reducedAvailDB :=
  adjust_negative_delta_refused reducedAvailDB
    { departure_id := uuidOne, delta := -20, reason := "ops" } "admin" 100 1
    reducedAvailDeparture (by decide) (by decide) (by decide) (by decide)

/-- The idempotency lookup over a fresh prefix followed by a matching record
resolves to that record whenever its expiry is still in the future. -/
theorem findIdemRecord_append_rec (pre : List IdemRecord) (rec : IdemRecord)
    (k M : String) (t : Int)
    (hpre : ∀ r ∈ pre, ¬(r.idempotency_key = k ∧ r.method = M))
    (hkey : rec.idempotency_key = k) (hm : rec.method = M)
    (ht : t < rec.expires_at) :
    findIdemRecord (pre ++ [rec]) k M t = some rec := by
  have hnone : (pre.find? (fun r =>
      r.idempotency_key == k && r.method == M && decide (t < r.expires_at))) = none := by
    have := findIdemRecord_fresh pre k M t hpre
    simpa [findIdemRecord] using this
  rw [findIdemRecord, List.find?_append, hnone, Option.none_or]
  exact List.find?_cons_of_pos _ (by simp [hkey, hm, ht])

/-- A replay of the same body against a stored record returns the cached
status and body and leaves the combined state untouched. -/
theorem execute_cached_hit {σ : Type} (hashFn : String → String)
    (op : σ → HttpResponse × σ) (M k b : String) (t : Int)
    (pre : List IdemRecord) (rec : IdemRecord) (d : σ)
    (hpre : ∀ r ∈ pre, ¬(r.idempotency_key = k ∧ r.method = M))
    (hkey : rec.idempotency_key = k) (hm : rec.method = M)
    (hh : rec.request_body_hash = hashFn b)
    (ht : t < rec.expires_at) :
    execute hashFn op M k b t { records := pre ++ [rec], domain := d } =
      ({ status := rec.response_status_code, body := rec.response_body },
       { records := pre ++ [rec], domain := d }) := by
  have hfind := findIdemRecord_append_rec pre rec k M t hpre hkey hm ht
  simp only [execute, hfind, if_neg (show ¬ rec.request_body_hash ≠ hashFn b by simp [hh])]

/-- Every call of a run of replays against a stored record returns the same
cached response and leaves the state untouched. -/
theorem executeMany_cached {σ : Type} (hashFn : String → String)
    (op : σ → HttpResponse × σ) (M k b : String) (ts : List Int)
    (pre : List IdemRecord) (rec : IdemRecord) (d : σ)
    (hpre : ∀ r ∈ pre, ¬(r.idempotency_key = k ∧ r.method = M))
    (hkey : rec.idempotency_key = k) (hm : rec.method = M)
    (hh : rec.request_body_hash = hashFn b)
    (ht : ∀ t ∈ ts, t < rec.expires_at) :
    executeMany hashFn op M k b ts { records := pre ++ [rec], domain := d } =
      (List.replicate ts.length
        { status := rec.response_status_code, body := rec.response_body },
       { records := pre ++ [rec], domain := d }) := by
  induction ts with
  | nil => rfl
  | cons t ts ih =>
    rw [executeMany]
    rw [execute_cached_hit hashFn op M k b t pre rec d hpre hkey hm hh
      (ht t (List.mem_cons_self t ts))]
    rw [ih (fun x hx => ht x (List.mem_cons_of_mem t hx))]
    simp [List.replicate]

/-- A fresh first call runs the operation, stores its response under the key
with a 24h TTL, and returns that response. -/
theorem execute_fresh_miss {σ : Type} (hashFn : String → String)
    (op : σ → HttpResponse × σ) (M k b : String) (t : Int) (st : DispatchState σ)
    (hfresh : ∀ r ∈ st.records, ¬(r.idempotency_key = k ∧ r.method = M)) :
    execute hashFn op M k b t st =
      ((op st.domain).1,
       { records := st.records ++
           [{ idempotency_key := k, method := M, request_body_hash := hashFn b,
              response_status_code := (op st.domain).1.status,
              response_body := (op st.domain).1.body,
              expires_at := t + idemTTLSeconds }],
         domain := (op st.domain).2 }) := by
  have hmiss := findIdemRecord_fresh st.records k M t hfresh
  have hstore := storeResponse_fresh st.records k M (hashFn b) (op st.domain).1 t hfresh
  simp only [execute, hmiss, hstore]

/-- C6: after a completed `execute(M, k, body1)` under a fresh key, a second
`execute(M, k, body2)` whose canonical hash differs is rejected by the
idempotency check with HTTP 422 and the IDEMPOTENCY_KEY_MISMATCH problem
before any operation runs: the combined state (idempotency table and domain
state) is returned unchanged, for any second operation `op2`. -/
theorem execute_mismatched_replay_rejected {σ : Type} (hashFn : String → String)
    (op op2 : σ → HttpResponse × σ) (M k b1 b2 : String) (t1 t2 : Int)
    (st : DispatchState σ)
    (hfresh : ∀ r ∈ st.records, ¬(r.idempotency_key = k ∧ r.method = M))
    (hhash : hashFn b1 ≠ hashFn b2)
    (ht1 : t1 ≤ t2) (ht2 : t2 < t1 + idemTTLSeconds) :
    execute hashFn op2 M k b2 t2 (execute hashFn op M k b1 t1 st).2 =
      ({ status := 422, body := RespBody.problem idempotencyMismatchProblem },
       (execute hashFn op M k b1 t1 st).2) ∧
    idempotencyMismatchProblem.status = 422 ∧
    idempotencyMismatchProblem.code = some "IDEMPOTENCY_KEY_MISMATCH" := by
  have h1 := execute_fresh_miss hashFn op M k b1 t1 st hfresh
  refine ⟨?_, rfl, rfl⟩
  rw [h1]
  have hfind := findIdemRecord_append_rec st.records
    { idempotency_key := k, method := M, request_body_hash := hashFn b1,
      response_status_code := (op st.domain).1.status,
      response_body := (op st.domain).1.body,
      expires_at := t1 + idemTTLSeconds } k M t2 hfresh rfl rfl ht2
  simp only [execute, hfind, if_pos (show (hashFn b1 : String) ≠ hashFn b2 from hhash)]

/-- C6 witness: storing body a under key k and replaying body b yields the
422 IDEMPOTENCY_KEY_MISMATCH response and an unchanged state. -/
theorem execute_mismatched_replay_rejected_witness :
    execute id demoOp "booking/hold" "k1" "bodyB" 1
        (execute id demoOp "booking/hold" "k1" "bodyA" 0 demoDispatch).2 =
      ({ status := 422, body := RespBody.problem idempotencyMismatchProblem },
       (execute id demoOp "booking/hold" "k1" "bodyA" 0 demoDispatch).2) ∧
    idempotencyMismatchProblem.status = 422 ∧
    idempotencyMismatchProblem.code = some "IDEMPOTENCY_KEY_MISMATCH" :=
  execute_mismatched_replay_rejected id demoOp demoOp "booking/hold" "k1"
    "bodyA" "bodyB" 0 1 demoDispatch (by simp [demoDispatch]) (by decide)
    (by decide) (by decide)

/-- C7: n = 1 + |ts| calls of `execute(M, k, body)` under a fresh key, the
replays all within the 24h TTL of the first call, return n identical
responses and end in exactly the state of the first call: the domain
operation runs once and every replay is served from the stored record. -/
theorem execute_replay_idempotent {σ : Type} (hashFn : String → String)
    (op : σ → HttpResponse × σ) (M k b : String) (t0 : Int) (ts : List Int)
    (st : DispatchState σ)
    (hfresh : ∀ r ∈ st.records, ¬(r.idempotency_key = k ∧ r.method = M))
    (ht : ∀ t ∈ ts, t0 ≤ t ∧ t < t0 + idemTTLSeconds) :
    executeMany hashFn op M k b (t0 :: ts) st =
      (List.replicate (ts.length + 1) (execute hashFn op M k b t0 st).1,
       (execute hashFn op M k b t0 st).2) := by
  have h1 := execute_fresh_miss hashFn op M k b t0 st hfresh
  rw [executeMany, h1]
  rw [executeMany_cached hashFn op M k b ts st.records
    { idempotency_key := k, method := M, request_body_hash := hashFn b,
      response_status_code := (op st.domain).1.status,
      response_body := (op st.domain).1.body,
      expires_at := t0 + idemTTLSeconds } (op st.domain).2 hfresh rfl rfl rfl
    (fun t htm => (ht t htm).2)]
  rw [List.replicate_succ]

/-- C7 witness: three calls with the same key and body at times 0, 10 and 20
yield three identical responses and the state of the first call alone. -/
theorem execute_replay_idempotent_witness :
    executeMany id demoOp "booking/hold" "k1" "bodyA" [0, 10, 20] demoDispatch =
      (List.replicate 3 (execute id demoOp "booking/hold" "k1" "bodyA" 0 demoDispatch).1,
       (execute id demoOp "booking/hold" "k1" "bodyA" 0 demoDispatch).2) :=
  execute_replay_idempotent id demoOp "booking/hold" "k1" "bodyA" 0 [10, 20]
    demoDispatch (by simp [demoDispatch])
    (by intro t htm; fin_cases htm <;> constructor <;> decide)

/-- C10: a booking-router request whose identifier field (departure_id for
hold, hold_id for confirm, booking_id for cancel and get) is an ASCII string
rejected by UUID parsing makes the corresponding service raise a bare
`ValueError` (not a `ProblemDetailsException`); the dispatcher try-block
only catches `ProblemDetailsException`, the endpoint catch-all turns the
`ValueError` into HTTP 500, and nothing is stored or mutated.  Identifier
strings are restricted to ASCII, where `uuidParse` matches CPython's
acceptance including the int(hex, 16) leniencies; CPython additionally maps
Unicode decimal digits and spaces, which the model does not cover. -/
theorem invalid_identifier_uuid_500 (hashFn : String → String)
    (st : DispatchState DB) (holdReq : CreateHoldRequest)
    (confirmReq : ConfirmBookingRequest) (cancelReq : CancelBookingRequest)
    (getReq : GetBookingRequest) (key body : String) (now : Int) (nid : Nat)
    (code : String)
    (hfresh : ∀ r ∈ st.records, r.idempotency_key ≠ key)
    (ha1 : isAsciiStr holdReq.departure_id = true)
    (ha2 : isAsciiStr confirmReq.hold_id = true)
    (ha3 : isAsciiStr cancelReq.booking_id = true)
    (ha4 : isAsciiStr getReq.booking_id = true)
    (hbad1 : uuidParse holdReq.departure_id = none)
    (hbad2 : uuidParse confirmReq.hold_id = none)
    (hbad3 : uuidParse cancelReq.booking_id = none)
    (hbad4 : uuidParse getReq.booking_id = none) :
    create_hold st.domain holdReq key now nid = Except.error ServiceError.valueError ∧
    create_hold_endpoint hashFn st holdReq key body now nid = (500, st) ∧
    confirm_booking st.domain confirmReq now nid code =
      Except.error ServiceError.valueError ∧
    confirm_booking_endpoint hashFn st confirmReq key body now nid code = (500, st) ∧
    cancel_booking st.domain cancelReq = Except.error ServiceError.valueError ∧
    cancel_booking_endpoint hashFn st cancelReq key body now = (500, st) ∧
    get_booking st.domain getReq = Except.error ServiceError.valueError ∧
    get_booking_endpoint st.domain getReq = 500 := by
  have hm1 := findIdemRecord_fresh st.records key "booking/hold" now
    (fun r hr hand => hfresh r hr hand.1)
  have hm2 := findIdemRecord_fresh st.records key "booking/confirm" now
    (fun r hr hand => hfresh r hr hand.1)
  have hm3 := findIdemRecord_fresh st.records key "booking/cancel" now
    (fun r hr hand => hfresh r hr hand.1)
  have h1 : create_hold st.domain holdReq key now nid = .error .valueError := by
    simp only [create_hold, hbad1]
  have h2 : confirm_booking st.domain confirmReq now nid code = .error .valueError := by
    simp only [confirm_booking, hbad2]
  have h3 : cancel_booking st.domain cancelReq = .error .valueError := by
    simp only [cancel_booking, hbad3]
  have h4 : get_booking st.domain getReq = .error .valueError := by
    simp only [get_booking, hbad4]
  refine ⟨h1, ?_, h2, ?_, h3, ?_, h4, ?_⟩
  · simp only [create_hold_endpoint, hm1, h1]
  · simp only [confirm_booking_endpoint, hm2, h2]
  · simp only [cancel_booking_endpoint, hm3, h3]
  · simp only [get_booking_endpoint, h4]

/-- C10 witness: the ASCII string not-a-uuid fails UUID parsing in all four
booking endpoints; each service raises the bare `ValueError` and each
endpoint answers 500 with the state unchanged. -/
theorem invalid_identifier_uuid_500_witness :
    create_hold emptyDispatchDB.domain
        { departure_id := "not-a-uuid", seats := 1, customer_ref := "c", ttl_seconds := 600 }
        "K" 0 100 = Except.error ServiceError.valueError ∧
    create_hold_endpoint id emptyDispatchDB
        { departure_id := "not-a-uuid", seats := 1, customer_ref := "c", ttl_seconds := 600 }
        "K" "body" 0 100 = (500, emptyDispatchDB) ∧
    confirm_booking emptyDispatchDB.domain { hold_id := "not-a-uuid" } 0 100 "CODE1234" =
      Except.error ServiceError.valueError ∧
    confirm_booking_endpoint id emptyDispatchDB { hold_id := "not-a-uuid" }
        "K" "body" 0 100 "CODE1234" = (500, emptyDispatchDB) ∧
    cancel_booking emptyDispatchDB.domain { booking_id := "not-a-uuid" } =
      Except.error ServiceError.valueError ∧
    cancel_booking_endpoint id emptyDispatchDB { booking_id := "not-a-uuid" }
        "K" "body" 0 = (500, emptyDispatchDB) ∧
    get_booking emptyDispatchDB.domain { booking_id := "not-a-uuid" } =
      Except.error ServiceError.valueError ∧
    get_booking_endpoint emptyDispatchDB.domain { booking_id := "not-a-uuid" } = 500 :=
  invalid_identifier_uuid_500 id emptyDispatchDB
    { departure_id := "not-a-uuid", seats := 1, customer_ref := "c", ttl_seconds := 600 }
    { hold_id := "not-a-uuid" } { booking_id := "not-a-uuid" } { booking_id := "not-a-uuid" }
    "K" "body" 0 100 "CODE1234" (by simp [emptyDispatchDB]) (by decide) (by decide)
    (by decide) (by decide) (by decide) (by decide) (by decide) (by decide)

end Reservation
